import Mathlib

/-!
# Verification of the OpenClaw Empathy Anchor skill

A shallow embedding of the Empathy Anchor mental-health support skill
(`skills/empathy-anchor/index.js`) and its host wrapper (`index.js`).
The source contains two parallel implementations of the skill:

* a class-based one (`EmpathyAnchor` with `validateEmotions`,
  `suggestResources`, `wrapWithCompassion`, `process`), embedded in the
  namespace `EmpathyAnchor` below, and
* a function-based one (`DISTRESS_KEYWORDS` / `CRISIS_KEYWORDS` /
  `analyzeEmotionalContent` / `generateEmpathyResponse` / `run`),
  embedded in the namespace `EmpathySkill` below.

JavaScript strings are modelled as Lean `String`; `toLowerCase`,
`includes` and `trim` are modelled character-wise (all pattern keywords
in the source are lowercase ASCII).  The `Math.random()` draws that pick
a phrase from a fixed pool are modelled as explicit natural-number
parameters reduced modulo the pool size, so that one run of the
composition corresponds to one choice of these parameters.  The
timestamp field of the class-based metadata (ambient wall-clock time) is
omitted; no claim refers to it.
-/

namespace EmpathySpec

/-! ## JavaScript string primitives -/

/-- `text.toLowerCase()`, character-wise (ASCII letters). -/
def jsToLower (s : String) : String :=
  String.mk (s.data.map Char.toLower)

/-- Does the needle occur at the very start of the haystack?
(First argument: needle, second: haystack.) -/
def matchesAt : List Char → List Char → Bool
  | [], _ => true
  | _ :: _, [] => false
  | c :: cs, d :: ds => c == d && matchesAt cs ds

/-- Does the needle occur anywhere in the haystack?
(First argument: needle, second: haystack.) -/
def listHas (needle : List Char) : List Char → Bool
  | [] => matchesAt needle []
  | d :: ds => matchesAt needle (d :: ds) || listHas needle ds

/-- `hay.includes(needle)` on JavaScript strings. -/
def jsIncludes (hay needle : String) : Bool :=
  listHas needle.data hay.data

/-- The whitespace characters relevant to `String.prototype.trim` for the
ASCII strings appearing in this program. -/
def isWsChar (c : Char) : Bool :=
  c == ' ' || c == '\t' || c == '\n' || c == '\r'

/-- `s.trim()`: remove leading and trailing whitespace. -/
def jsTrim (s : String) : String :=
  String.mk (((s.data.dropWhile isWsChar).reverse.dropWhile isWsChar).reverse)

/-- JavaScript `a || b` specialised to an optional string field `a` read
off an object: `undefined` and the empty string are falsy. -/
def jsOrString (v : Option String) (fallback : String) : String :=
  match v with
  | some s => if s == "" then fallback else s
  | none => fallback

end EmpathySpec

namespace EmpathyAnchor

open EmpathySpec

/-! ## Class-based implementation (`class EmpathyAnchor`) -/

/-- Result of `validateEmotions`. -/
structure EmotionData where
  emotions : List String
  isCrisis : Bool
  intensity : String
deriving DecidableEq

/-- `this.emotionPatterns.anxiety`. -/
def anxietyPatterns : List String :=
  ["anxious", "worried", "nervous", "scared", "afraid", "panic", "stress"]

/-- `this.emotionPatterns.sadness`. -/
def sadnessPatterns : List String :=
  ["sad", "depressed", "down", "unhappy", "hopeless", "lonely", "empty"]

/-- `this.emotionPatterns.anger`. -/
def angerPatterns : List String :=
  ["angry", "mad", "frustrated", "annoyed", "upset", "furious"]

/-- `this.emotionPatterns.fear`. -/
def fearPatterns : List String :=
  ["terrified", "frightened", "fearful", "scared", "afraid"]

/-- `this.emotionPatterns.overwhelm`. -/
def overwhelmPatterns : List String :=
  ["overwhelmed", "too much", "cannot handle", "drowning", "stuck"]

/-- `this.emotionPatterns.crisis`. -/
def crisisPatterns : List String :=
  ["suicide", "suicidal", "kill myself", "end it all", "want it all to end",
   "want to die", "better off dead", "no point", "don't want to live",
   "hurt myself", "self-harm", "cut myself", "end my life", "take my life"]

/-- `this.emotionPatterns`, in object-insertion order. -/
def emotionPatterns : List (String × List String) :=
  [("anxiety", anxietyPatterns), ("sadness", sadnessPatterns),
   ("anger", angerPatterns), ("fear", fearPatterns),
   ("overwhelm", overwhelmPatterns), ("crisis", crisisPatterns)]

/-- The inner `for (const pattern of patterns) { if (lowerText.includes(pattern)) ... break }`
loop: did any pattern of the category match? -/
def categoryMatches (lowerText : String) (patterns : List String) : Bool :=
  patterns.any (fun p => jsIncludes lowerText p)

/-- `[...new Set(list)]`: deduplicate, keeping first occurrences. -/
def dedupFirst (l : List String) : List String :=
  l.foldl (fun acc x => if acc.contains x then acc else acc ++ [x]) []

/-- `validateEmotions(text)`: scan every emotion category against the
lower-cased text, flagging crisis and setting intensity. -/
def validateEmotions (text : String) : EmotionData :=
  let lowerText := jsToLower text
  let detected := emotionPatterns.foldl
    (fun (acc : EmotionData) entry =>
      if categoryMatches lowerText entry.2 then
        { emotions := acc.emotions ++ [entry.1],
          isCrisis := acc.isCrisis || entry.1 == "crisis",
          intensity := if entry.1 == "crisis" then "critical" else acc.intensity }
      else acc)
    { emotions := [], isCrisis := false, intensity := "moderate" }
  let deduped : EmotionData := { detected with emotions := dedupFirst detected.emotions }
  if deduped.emotions.length > 3 && !deduped.isCrisis then
    { deduped with intensity := "high" }
  else deduped

/-- A base entry of `this.resources`. -/
structure Resource where
  name : String
  number : String
  description : String
deriving DecidableEq

/-- `this.resources.crisis`. -/
def crisisResource : Resource :=
  { name := "988 Suicide & Crisis Lifeline", number := "988",
    description := "Free, confidential support 24/7 for people in distress" }

/-- `this.resources.text`. -/
def textResource : Resource :=
  { name := "Crisis Text Line", number := "Text HOME to 741741",
    description := "Free, 24/7 crisis support via text" }

/-- `this.resources.trevor`. -/
def trevorResource : Resource :=
  { name := "The Trevor Project", number := "1-866-488-7386",
    description := "LGBTQ+ youth crisis support" }

/-- `this.resources.general`. -/
def generalResource : Resource :=
  { name := "SAMHSA National Helpline", number := "1-800-662-4357",
    description := "Substance abuse and mental health services" }

/-- An element of the list returned by `suggestResources`: a resource,
possibly extended with an `urgent` flag and a context `message`
(absent JavaScript object fields are modelled by the defaults). -/
structure Suggestion where
  name : String
  number : String
  description : String
  urgent : Bool
  message : Option String
deriving DecidableEq

/-- Spreading a plain resource into a suggestion (`{...resource}`). -/
def asSuggestion (r : Resource) : Suggestion :=
  { name := r.name, number := r.number, description := r.description,
    urgent := false, message := none }

/-- `suggestResources(emotionData)`. -/
def suggestResources (emotionData : EmotionData) : List Suggestion :=
  if emotionData.isCrisis then
    [{ asSuggestion crisisResource with
        urgent := true,
        message := some "If you're in crisis, please reach out immediately:" },
     asSuggestion textResource]
  else
    (if emotionData.intensity == "high" || emotionData.emotions.length > 2 then
      [{ asSuggestion crisisResource with
          message := some "If you need immediate support, these resources are available 24/7:" }]
     else []) ++
    [{ asSuggestion generalResource with
        message := some "For ongoing support and resources:" }]

/-- `this.compassionateFrames.opening`. -/
def openingFrames : List String :=
  ["I hear you, and what you're feeling is valid.",
   "Thank you for sharing that with me. Your feelings matter.",
   "I'm here to listen, and I want you to know you're not alone.",
   "It takes courage to express how you're feeling. I'm here for you."]

/-- `this.compassionateFrames.validation`. -/
def validationFrames : List String :=
  ["It's completely okay to feel this way.",
   "Your emotions are real and important.",
   "Many people experience similar feelings, and they're all valid.",
   "What you're going through is significant, and you deserve support."]

/-- `this.compassionateFrames.supportive`. -/
def supportiveFrames : List String :=
  ["You deserve compassion and understanding.",
   "Taking care of your mental health is important and brave.",
   "Remember, reaching out for help is a sign of strength.",
   "You're worth the care and support you need."]

/-- `frames[Math.floor(Math.random() * frames.length)]`, the random draw
modelled by an explicit index reduced modulo the pool size. -/
def pickFrame (frames : List String) (i : Nat) : String :=
  frames.getD (i % frames.length) ("")

/-- The `resources.forEach(...)` body: one formatted resource entry. -/
def formatSuggestion (r : Suggestion) : String :=
  (match r.message with
   | some m => m ++ "\n"
   | none => "") ++
  "- **" ++ r.name ++ "**: " ++ r.number ++ "\n" ++
  "  " ++ r.description ++ "\n\n"

/-- The resource section appended by `wrapWithCompassion`: header plus
one formatted entry per suggestion, empty when there are no suggestions. -/
def resourcesBlock (emotionData : EmotionData) : String :=
  let resources := suggestResources emotionData
  if resources.length > 0 then
    "\n**Resources for Support:**\n\n" ++ String.join (resources.map formatSuggestion)
  else ""

/-- `wrapWithCompassion(originalResponse, userInput)`; `oi`, `vi`, `si`
are the three random draws for the opening, validation and supportive
frames. -/
def wrapWithCompassion (originalResponse userInput : String) (oi vi si : Nat) : String :=
  let emotionData := validateEmotions userInput
  let opening := pickFrame openingFrames oi
  let validation := pickFrame validationFrames vi
  let supportive := pickFrame supportiveFrames si
  opening ++ "\n\n" ++
  (if emotionData.emotions.length > 0 then validation ++ "\n\n" else "") ++
  originalResponse ++ "\n\n" ++
  resourcesBlock emotionData ++
  supportive

/-- `generateSupportiveResponse(emotionData)` (offline fallback when no
AI response is supplied). -/
def generateSupportiveResponse (emotionData : EmotionData) : String :=
  if emotionData.isCrisis then
    "Your life has value, and you deserve support right now. Please don't face this alone."
  else if emotionData.emotions.length == 0 then
    "I'm here to listen and support you. Would you like to share more about what's on your mind?"
  else
    "I understand you're experiencing feelings of " ++
    String.intercalate ", " emotionData.emotions ++
    ". These emotions are valid, and it's important to acknowledge them. Would you like to talk more about what you're going through?"

/-- The `metadata` object built by `process` (the wall-clock timestamp
field is omitted from the model). -/
structure ProcessMeta where
  emotionsDetected : List String
  isCrisis : Bool
  intensity : String
  offlineMode : Bool
deriving DecidableEq

/-- The object returned by `process`. -/
structure ProcessResult where
  response : String
  metadata : ProcessMeta
deriving DecidableEq

/-- `process(userInput, aiResponse)`; `offlineMode` is
`this.config.offlineMode`. -/
def process (offlineMode : Bool) (userInput : String) (aiResponse : Option String)
    (oi vi si : Nat) : ProcessResult :=
  let emotionData := validateEmotions userInput
  let baseResponse := jsOrString aiResponse (generateSupportiveResponse emotionData)
  { response := wrapWithCompassion baseResponse userInput oi vi si,
    metadata :=
      { emotionsDetected := emotionData.emotions,
        isCrisis := emotionData.isCrisis,
        intensity := emotionData.intensity,
        offlineMode := offlineMode } }

end EmpathyAnchor

namespace OpenClaw

open EmpathySpec EmpathyAnchor

/-! ## Host wrapper (`index.js`, `class OpenClaw`) -/

/-- The value returned by `OpenClaw.chat`: either the fixed empty-input
result, whose metadata consists of the single `error` tag (in particular
it carries no `isCrisis` or `intensity` field), or the result of
`empathyAnchor.process`. -/
inductive ChatResult where
  | emptyInput (response : String) (error : String)
  | processed (result : ProcessResult)
deriving DecidableEq

/-- `chat(message, aiResponse)`; `offlineMode` is the configuration flag
passed down to the skill, and `oi`, `vi`, `si` are the skill's random
frame draws. -/
def chat (offlineMode : Bool) (message : String) (aiResponse : Option String)
    (oi vi si : Nat) : ChatResult :=
  if message == "" || jsTrim message == "" then
    ChatResult.emptyInput "I'm here to listen. Please share what's on your mind." "Empty input"
  else
    ChatResult.processed (process offlineMode message aiResponse oi vi si)

end OpenClaw

namespace EmpathySkill

open EmpathySpec

/-! ## Function-based implementation (Michigan youth empathy skill)

The second half of `skills/empathy-anchor/index.js`: the coarser
two-tier keyword detector and the `run` entry point.  The source file is
stored with its emoji bytes mis-decoded (for example the lock emoji
appears as the four characters `U+00F0 U+0178 U+201D U+2019`); the
string literals below reproduce those characters exactly. -/

/-- `MICHIGAN_RESOURCES.suicide988`. -/
structure Mich988 where
  name : String
  contact : String
  availability : String
  description : String
deriving DecidableEq

/-- `MICHIGAN_RESOURCES.namiMichigan`. -/
structure MichNami where
  name : String
  website : String
  helpline : String
  description : String
deriving DecidableEq

/-- `MICHIGAN_RESOURCES.crisisTextLine`. -/
structure MichText where
  name : String
  contact : String
  availability : String
  description : String
deriving DecidableEq

/-- `MICHIGAN_RESOURCES.teenLine`. -/
structure MichTeen where
  name : String
  contact : String
  description : String
deriving DecidableEq

/-- The `MICHIGAN_RESOURCES` object. -/
structure MichiganResources where
  suicide988 : Mich988
  namiMichigan : MichNami
  crisisTextLine : MichText
  teenLine : MichTeen
deriving DecidableEq

/-- `MICHIGAN_RESOURCES`. -/
def MICHIGAN_RESOURCES : MichiganResources :=
  { suicide988 :=
      { name := "988 Suicide & Crisis Lifeline", contact := "Call or Text 988",
        availability := "24/7", description := "Free, confidential crisis support" },
    namiMichigan :=
      { name := "NAMI Michigan", website := "https://namimi.org",
        helpline := "1-800-950-NAMI (6264)",
        description := "Support groups, education, and advocacy" },
    crisisTextLine :=
      { name := "Michigan Crisis Text Line", contact := "Text \"HELLO\" to 741741",
        availability := "24/7", description := "Text-based crisis support" },
    teenLine :=
      { name := "Teen Line", contact := "1-800-TLC-TEEN (852-8336)",
        description := "Peer support for teens" } }

/-- `DISTRESS_KEYWORDS`. -/
def DISTRESS_KEYWORDS : List String :=
  ["anxious", "anxiety", "worried", "stress", "stressed",
   "sad", "sadness", "depressed", "depression", "lonely", "alone",
   "scared", "afraid", "fear", "panic", "overwhelmed",
   "hurt", "pain", "crying", "upset", "angry", "frustrated",
   "hopeless", "helpless", "worthless", "suicide", "self-harm",
   "nobody understands", "nobody cares", "give up", "end it"]

/-- `CRISIS_KEYWORDS`. -/
def CRISIS_KEYWORDS : List String :=
  ["suicide", "suicidal", "kill myself", "want to die", "end my life",
   "self-harm", "hurt myself", "cutting", "overdose"]

/-- `VALIDATION_PHRASES`. -/
def VALIDATION_PHRASES : List String :=
  ["It's completely okay to feel that way",
   "Your feelings are valid, and it's brave to share them",
   "Many young people experience similar emotions",
   "Thank you for trusting me with this",
   "I hear you, and what you're feeling matters",
   "It takes courage to express these feelings",
   "You're not alone in feeling this way"]

/-- The `context.system` object consulted by `isOfflineMode` (absent
JavaScript fields are modelled by `false` / the empty string). -/
structure SystemInfo where
  offlineMode : Bool
  offline : Bool
  networkStatus : String
deriving DecidableEq

/-- The skill execution context (`context.system` may be absent). -/
structure Context where
  system : Option SystemInfo
deriving DecidableEq

/-- `isOfflineMode(context)`; `envOfflineMode` is the ambient
`process.env.OFFLINE_MODE` variable, passed explicitly.  When
`context.system` is present the environment variable is not consulted. -/
def isOfflineMode (context : Context) (envOfflineMode : Option String) : Bool :=
  match context.system with
  | some sys => sys.offlineMode || sys.offline || sys.networkStatus == "offline"
  | none => envOfflineMode == some "true" || envOfflineMode == some "1"

/-- The object returned by `analyzeEmotionalContent`. -/
structure Analysis where
  hasCrisis : Bool
  hasDistress : Bool
  emotionLevel : String
  suggestResources : Bool
deriving DecidableEq

/-- `analyzeEmotionalContent(message)`. -/
def analyzeEmotionalContent (message : String) : Analysis :=
  let lowerMessage := jsToLower message
  let hasCrisis := CRISIS_KEYWORDS.any (fun keyword => jsIncludes lowerMessage keyword)
  let hasDistress := DISTRESS_KEYWORDS.any (fun keyword => jsIncludes lowerMessage keyword)
  { hasCrisis := hasCrisis,
    hasDistress := hasDistress,
    emotionLevel := if hasCrisis then "crisis" else if hasDistress then "distress" else "neutral",
    suggestResources := hasCrisis || hasDistress }

/-- `generateValidation()`, the random draw modelled by an explicit
index reduced modulo the pool size. -/
def generateValidation (i : Nat) : String :=
  VALIDATION_PHRASES.getD (i % VALIDATION_PHRASES.length) ("")

/-- `formatResourceSuggestions(emotionLevel)`. -/
def formatResourceSuggestions (emotionLevel : String) : String :=
  if emotionLevel == "crisis" then
    "\n\n**Immediate Support Available:**\n" ++
    "ðŸ†˜ **" ++ MICHIGAN_RESOURCES.suicide988.name ++ "**: " ++
    MICHIGAN_RESOURCES.suicide988.contact ++ " (" ++
    MICHIGAN_RESOURCES.suicide988.availability ++ ")\n" ++
    "ðŸ’¬ **" ++ MICHIGAN_RESOURCES.crisisTextLine.name ++ "**: " ++
    MICHIGAN_RESOURCES.crisisTextLine.contact ++ "\n" ++
    "\nYou don't have to go through this alone. These resources are here to help right now."
  else if emotionLevel == "distress" then
    "\n\n**Michigan Resources for Support:**\n" ++
    "â€¢ **" ++ MICHIGAN_RESOURCES.suicide988.name ++ "**: " ++
    MICHIGAN_RESOURCES.suicide988.contact ++ " (" ++
    MICHIGAN_RESOURCES.suicide988.availability ++ ")\n" ++
    "â€¢ **" ++ MICHIGAN_RESOURCES.namiMichigan.name ++ "**: " ++
    MICHIGAN_RESOURCES.namiMichigan.helpline ++ " - " ++
    MICHIGAN_RESOURCES.namiMichigan.description ++ "\n" ++
    "â€¢ **" ++ MICHIGAN_RESOURCES.teenLine.name ++ "**: " ++
    MICHIGAN_RESOURCES.teenLine.contact ++ "\n" ++
    "\nThese resources are free, confidential, and here for you."
  else ""

/-- The privacy notice appended by `generateEmpathyResponse` in offline
mode (leading four characters: the mis-decoded lock emoji). -/
def privacyNotice : String :=
  "\n\nðŸ”’ **Privacy Mode**: Your conversation is staying private on your device. "

set_option linter.unusedVariables false in
/-- `generateEmpathyResponse(message, analysis, offline)`; `vi` is the
random draw of `generateValidation`.  (The `message` argument is unused
by the source body as well.) -/
def generateEmpathyResponse (message : String) (analysis : Analysis) (offline : Bool)
    (vi : Nat) : String :=
  let validationPart :=
    if analysis.hasDistress || analysis.hasCrisis then generateValidation vi ++ ". " else ""
  let privacyPart := if offline then privacyNotice else ""
  let resourcePart :=
    if analysis.suggestResources then formatResourceSuggestions analysis.emotionLevel else ""
  jsTrim (validationPart ++ privacyPart ++ resourcePart)

/-- The `params` object of `run` (the three accepted message aliases,
each possibly absent). -/
structure RunParams where
  message : Option String
  text : Option String
  content : Option String
deriving DecidableEq

/-- The object returned by `run`.  The fields absent from the early
empty-message return are modelled as `Option` set to `none` there.
`privacyMode` and `resourcesShared` are the `metadata` fields. -/
structure RunResult where
  success : Bool
  empathyLevel : String
  response : String
  hasResources : Option Bool := none
  offline : Option Bool := none
  privacyMode : Option Bool := none
  resourcesShared : Option Bool := none
deriving DecidableEq

/-- `run(context, params)`: the main skill entry point.  Every operation
it performs is total on string-valued parameters, so the `catch` branch
of the source is unreachable in this model and `success` is always
`true`. -/
def run (context : Context) (envOfflineMode : Option String) (params : RunParams)
    (vi : Nat) : RunResult :=
  let message := jsOrString params.message (jsOrString params.text (jsOrString params.content ("")))
  if message == "" then
    { success := true, empathyLevel := "none", response := "" }
  else
    let offline := isOfflineMode context envOfflineMode
    let analysis := analyzeEmotionalContent message
    let response := generateEmpathyResponse message analysis offline vi
    { success := true,
      empathyLevel := analysis.emotionLevel,
      response := response,
      hasResources := some analysis.suggestResources,
      offline := some offline,
      privacyMode := some offline,
      resourcesShared := some analysis.suggestResources }

end EmpathySkill

namespace EmpathySpec

/-! ## Lemmas about the string primitives -/

theorem matchesAt_nil (l : List Char) : matchesAt [] l = true := by
  cases l <;> rfl

theorem matchesAt_append {n l : List Char} (r : List Char)
    (h : matchesAt n l = true) : matchesAt n (l ++ r) = true := by
  induction n generalizing l with
  | nil => exact matchesAt_nil _
  | cons c cs ih =>
    cases l with
    | nil => simp [matchesAt] at h
    | cons d ds =>
      simp only [matchesAt, Bool.and_eq_true] at h
      simp only [List.cons_append, matchesAt, Bool.and_eq_true]
      exact ⟨h.1, ih h.2⟩

theorem matchesAt_self_append (n r : List Char) : matchesAt n (n ++ r) = true := by
  induction n with
  | nil => exact matchesAt_nil _
  | cons c cs ih =>
    simp only [List.cons_append, matchesAt, Bool.and_eq_true]
    exact ⟨by simp, ih⟩

theorem listHas_of_matchesAt {n l : List Char} (h : matchesAt n l = true) :
    listHas n l = true := by
  cases l with
  | nil => simpa [listHas] using h
  | cons d ds => simp [listHas, h]

theorem listHas_append_right {n b : List Char} (a : List Char)
    (h : listHas n b = true) : listHas n (a ++ b) = true := by
  induction a with
  | nil => simpa using h
  | cons x xs ih => simp [listHas, ih]

theorem listHas_append_left {n a : List Char} (b : List Char)
    (h : listHas n a = true) : listHas n (a ++ b) = true := by
  induction a with
  | nil =>
    simp only [listHas] at h
    have : n = [] := by
      cases n with
      | nil => rfl
      | cons c cs => simp [matchesAt] at h
    subst this
    exact listHas_of_matchesAt (matchesAt_nil _)
  | cons x xs ih =>
    simp only [listHas, Bool.or_eq_true] at h
    rcases h with h | h
    · exact listHas_of_matchesAt (by simpa using matchesAt_append b h)
    · simp [listHas, ih h]

theorem listHas_parts (n a b : List Char) : listHas n (a ++ (n ++ b)) = true :=
  listHas_append_right a (listHas_of_matchesAt (matchesAt_self_append n b))

theorem data_append (a b : String) : (a ++ b).data = a.data ++ b.data := rfl

theorem jsIncludes_append_left {a : String} (b : String) {n : String}
    (h : jsIncludes a n = true) : jsIncludes (a ++ b) n = true := by
  simpa [jsIncludes, data_append] using listHas_append_left b.data h

theorem jsIncludes_append_right (a : String) {b n : String}
    (h : jsIncludes b n = true) : jsIncludes (a ++ b) n = true := by
  simpa [jsIncludes, data_append] using listHas_append_right a.data h

/-- Dropping a leading run of characters satisfying `p` from a list that
contains an occurrence of a needle starting with a character violating
`p` keeps that occurrence intact. -/
theorem dropWhile_keeps (p : Char → Bool) (c : Char) (cs : List Char)
    (hc : p c = false) (a : List Char) :
    ∃ a1, (a ++ (c :: cs)).dropWhile p = a1 ++ (c :: cs) := by
  induction a with
  | nil => exact ⟨[], by simp [List.dropWhile_cons, hc]⟩
  | cons x xs ih =>
    by_cases hx : p x = true
    · obtain ⟨a1, ha1⟩ := ih
      exact ⟨a1, by simp [List.dropWhile_cons, hx, ha1]⟩
    · exact ⟨x :: xs, by simp [List.dropWhile_cons, hx]⟩

/-- Trimming whitespace from both ends of `a ++ n ++ b` keeps any
occurrence of a needle `n` whose first and last characters are not
whitespace. -/
theorem trimList_keeps (n a b : List Char)
    (h1 : ∃ c cs, n = c :: cs ∧ isWsChar c = false)
    (h2 : ∃ d ds, n.reverse = d :: ds ∧ isWsChar d = false) :
    listHas n (((a ++ (n ++ b)).dropWhile isWsChar).reverse.dropWhile isWsChar).reverse
      = true := by
  obtain ⟨c, cs, hn, hc⟩ := h1
  obtain ⟨d, ds, hm, hd⟩ := h2
  obtain ⟨a1, ha1⟩ := dropWhile_keeps isWsChar c (cs ++ b) hc a
  have e2 : (a ++ (n ++ b)).dropWhile isWsChar = a1 ++ (n ++ b) := by
    rw [hn, List.cons_append, ha1]
  rw [e2]
  have e3 : (a1 ++ (n ++ b)).reverse = b.reverse ++ (d :: (ds ++ a1.reverse)) := by
    rw [List.reverse_append, List.reverse_append, hm, List.append_assoc, List.cons_append]
  rw [e3]
  obtain ⟨a2, ha2⟩ := dropWhile_keeps isWsChar d (ds ++ a1.reverse) hd b.reverse
  rw [ha2]
  have hnn : n = ds.reverse ++ [d] := by
    have := congrArg List.reverse hm
    simpa using this
  have e4 : (a2 ++ (d :: (ds ++ a1.reverse))).reverse = a1 ++ (n ++ a2.reverse) := by
    simp [hnn, List.append_assoc]
  rw [e4]
  exact listHas_parts n a1 a2.reverse

theorem strAppend_assoc (a b c : String) : a ++ b ++ c = a ++ (b ++ c) := by
  cases a with
  | mk la =>
    cases b with
    | mk lb =>
      cases c with
      | mk lc => exact congrArg String.mk (List.append_assoc la lb lc)

/-- String-level corollary: a needle with non-whitespace first and last
characters survives `trim` when the trimmed string decomposes around it. -/
theorem jsIncludes_jsTrim_of_parts (pre needle post : String)
    (hne : needle.data ≠ [])
    (hh : isWsChar (needle.data.headD (' ')) = false)
    (hl : isWsChar (needle.data.reverse.headD (' ')) = false) :
    jsIncludes (jsTrim (pre ++ needle ++ post)) needle = true := by
  have h1 : ∃ c cs, needle.data = c :: cs ∧ isWsChar c = false := by
    cases hd : needle.data with
    | nil => exact absurd hd hne
    | cons c cs => exact ⟨c, cs, rfl, by simpa [hd] using hh⟩
  have h2 : ∃ d ds, needle.data.reverse = d :: ds ∧ isWsChar d = false := by
    cases hd : needle.data.reverse with
    | nil => exact absurd (List.reverse_eq_nil_iff.mp hd) hne
    | cons d ds => exact ⟨d, ds, rfl, by simpa [hd] using hl⟩
  have hdata : (pre ++ needle ++ post).data
      = pre.data ++ (needle.data ++ post.data) := by
    simp [data_append, List.append_assoc]
  simp only [jsIncludes, jsTrim, hdata]
  exact trimList_keeps needle.data pre.data post.data h1 h2

theorem dropWhile_of_all {p : Char → Bool} {l : List Char}
    (h : l.all p = true) : l.dropWhile p = [] := by
  induction l with
  | nil => rfl
  | cons x xs ih =>
    simp only [List.all_cons, Bool.and_eq_true] at h
    simp [List.dropWhile_cons, h.1, ih h.2]

/-- A string of pure whitespace trims to the empty string. -/
theorem jsTrim_all_ws {s : String} (h : s.data.all isWsChar = true) :
    jsTrim s = "" := by
  simp [jsTrim, dropWhile_of_all h]

end EmpathySpec

namespace EmpathyAnchor

open EmpathySpec

/-! ## Characterization of the class-based detector -/

/-- The emotion labels whose category matches the lower-cased text, in
category order: the net effect of the detection loop of
`validateEmotions`. -/
def detectedLabels (text : String) : List String :=
  (emotionPatterns.filter (fun entry => categoryMatches (jsToLower text) entry.2)).map
    Prod.fst

/-- Closed form of `validateEmotions`: the emotion list is the list of
matched category labels (already duplicate-free), crisis holds exactly
when the crisis category matched, and the intensity is `critical` on
crisis, otherwise `high` with more than three matched categories,
otherwise `moderate`. -/
theorem validateEmotions_eq (text : String) :
    validateEmotions text =
      { emotions := detectedLabels text,
        isCrisis := categoryMatches (jsToLower text) crisisPatterns,
        intensity :=
          if categoryMatches (jsToLower text) crisisPatterns then "critical"
          else if 3 < (detectedLabels text).length then "high"
          else "moderate" } := by
  cases h1 : categoryMatches (jsToLower text) anxietyPatterns <;>
  cases h2 : categoryMatches (jsToLower text) sadnessPatterns <;>
  cases h3 : categoryMatches (jsToLower text) angerPatterns <;>
  cases h4 : categoryMatches (jsToLower text) fearPatterns <;>
  cases h5 : categoryMatches (jsToLower text) overwhelmPatterns <;>
  cases h6 : categoryMatches (jsToLower text) crisisPatterns <;>
  simp [validateEmotions, detectedLabels, emotionPatterns, h1, h2, h3, h4, h5, h6,
    dedupFirst]

/-- On a crisis analysis `suggestResources` returns exactly the urgent
crisis-line entry followed by the text line. -/
theorem suggestResources_of_crisis {e : EmotionData} (h : e.isCrisis = true) :
    suggestResources e =
      [{ asSuggestion crisisResource with
          urgent := true,
          message := some "If you're in crisis, please reach out immediately:" },
       asSuggestion textResource] := by
  simp [suggestResources, h]

/-- On a non-crisis, high-intensity analysis `suggestResources` returns
the non-urgent crisis-line entry followed by the general helpline. -/
theorem suggestResources_of_high {e : EmotionData}
    (h1 : e.isCrisis = false) (h2 : e.intensity = "high") :
    suggestResources e =
      [{ asSuggestion crisisResource with
          message := some "If you need immediate support, these resources are available 24/7:" },
       { asSuggestion generalResource with
          message := some "For ongoing support and resources:" }] := by
  simp [suggestResources, h1, h2]

end EmpathyAnchor

namespace EmpathySkill

open EmpathySpec

/-- The privacy notice survives trimming in any composition
`validation ++ privacyNotice ++ resources`. -/
theorem notice_in_trimmed (vp rp : String) :
    jsIncludes (jsTrim (vp ++ privacyNotice ++ rp))
      ("**Privacy Mode**: Your conversation is staying private on your device.") = true := by
  have h0 : privacyNotice
      = "\n\nðŸ”’ " ++
        "**Privacy Mode**: Your conversation is staying private on your device." ++ " " := rfl
  have hsplit : vp ++ privacyNotice ++ rp
      = (vp ++ "\n\nðŸ”’ ") ++
        "**Privacy Mode**: Your conversation is staying private on your device." ++
        (" " ++ rp) := by
    rw [h0]
    simp only [strAppend_assoc]
  rw [hsplit]
  exact jsIncludes_jsTrim_of_parts _ _ _ (by decide) (by decide) (by decide)

end EmpathySkill

namespace Claims

open EmpathySpec EmpathyAnchor OpenClaw EmpathySkill

set_option maxRecDepth 100000

/-- C2: for every input text, if `validateEmotions` reports a crisis then
the reported intensity is `critical`; the later more-than-3-emotions rule
never downgrades a crisis result to `high`. -/
theorem crisis_implies_critical (text : String)
    (h : (validateEmotions text).isCrisis = true) :
    (validateEmotions text).intensity = "critical" := by
  rw [validateEmotions_eq] at h ⊢
  simp only at h
  simp [h]

theorem crisis_implies_critical_witness :
    (validateEmotions ("I am suicidal")).isCrisis = true ∧
    (validateEmotions ("I am suicidal")).intensity = "critical" :=
  ⟨by decide, crisis_implies_critical ("I am suicidal") (by decide)⟩

/-- C4 (counterexample): the claim that every detected emotion label is
one of the five labels anxiety, sadness, anger, fear, overwhelm fails:
for the input "suicide" the label `crisis` itself is pushed into the
emotions list. -/
theorem five_label_vocab_cex :
    "crisis" ∈ (validateEmotions ("suicide")).emotions ∧
    "crisis" ∉ (["anxiety", "sadness", "anger", "fear", "overwhelm"] : List String) := by
  decide

/-- C4 (amended): every element of the emotions list returned by
`validateEmotions` is one of the SIX labels anxiety, sadness, anger,
fear, overwhelm, crisis, and the list contains no duplicates. -/
theorem emotion_vocab_six_nodup (text : String) :
    (∀ e ∈ (validateEmotions text).emotions,
      e ∈ (["anxiety", "sadness", "anger", "fear", "overwhelm", "crisis"] : List String)) ∧
    (validateEmotions text).emotions.Nodup := by
  rw [validateEmotions_eq]
  simp only
  cases h1 : categoryMatches (jsToLower text) anxietyPatterns <;>
  cases h2 : categoryMatches (jsToLower text) sadnessPatterns <;>
  cases h3 : categoryMatches (jsToLower text) angerPatterns <;>
  cases h4 : categoryMatches (jsToLower text) fearPatterns <;>
  cases h5 : categoryMatches (jsToLower text) overwhelmPatterns <;>
  cases h6 : categoryMatches (jsToLower text) crisisPatterns <;>
  simp [detectedLabels, emotionPatterns, h1, h2, h3, h4, h5, h6]

/-- C5 (counterexample): `CRISIS_KEYWORDS` is not a subset of
`DISTRESS_KEYWORDS`: the crisis keyword "suicidal" is not a distress
keyword (nor are "kill myself", "want to die", "end my life",
"hurt myself", "cutting", "overdose"). -/
theorem crisis_subset_distress_cex :
    "suicidal" ∈ CRISIS_KEYWORDS ∧ "suicidal" ∉ DISTRESS_KEYWORDS := by
  decide

/-- C5 (amended): exactly two of the nine crisis keywords, "suicide" and
"self-harm", also occur in `DISTRESS_KEYWORDS`; the crisis vocabulary is
not a subset of the distress vocabulary. -/
theorem crisis_distress_shared_keywords :
    CRISIS_KEYWORDS.filter (fun k => DISTRESS_KEYWORDS.contains k)
      = ["suicide", "self-harm"] ∧
    ¬ (∀ k ∈ CRISIS_KEYWORDS, k ∈ DISTRESS_KEYWORDS) := by
  decide

/-- C3 (counterexample): the claim that the neutral case yields an empty
resource list in BOTH implementations fails for the class-based
`suggestResources`: on the neutral analysis of "hello" it still returns
the general-helpline entry. -/
theorem neutral_empty_resources_cex :
    (validateEmotions ("hello")).emotions = [] ∧
    (validateEmotions ("hello")).isCrisis = false ∧
    suggestResources (validateEmotions ("hello")) ≠ [] := by
  decide

/-- C3 (amended): on a neutral analysis (no emotions, no crisis,
moderate intensity) the function-based `formatResourceSuggestions`
returns nothing, but the class-based `suggestResources` always appends
the general SAMHSA helpline and returns exactly that one entry. -/
theorem neutral_resources_amended (e : EmotionData)
    (h1 : e.emotions = []) (h2 : e.isCrisis = false) (h3 : e.intensity = "moderate") :
    suggestResources e =
      [{ asSuggestion generalResource with
          message := some "For ongoing support and resources:" }] ∧
    formatResourceSuggestions ("neutral") = "" := by
  constructor
  · simp [suggestResources, h1, h2, h3]
  · decide

theorem neutral_resources_amended_witness :
    suggestResources { emotions := [], isCrisis := false, intensity := "moderate" } =
      [{ asSuggestion generalResource with
          message := some "For ongoing support and resources:" }] :=
  (neutral_resources_amended
    { emotions := [], isCrisis := false, intensity := "moderate" } rfl rfl rfl).1

/-- C10: `OpenClaw.chat` on an empty or whitespace-only message returns
the fixed listening prompt tagged `Empty input`; the `emptyInput` result
shape carries no emotion metadata at all (no `isCrisis`/`intensity`),
and the skill's `process`/`validateEmotions` are not invoked. -/
theorem whitespace_chat_listening_prompt (offlineMode : Bool) (message : String)
    (aiResponse : Option String) (oi vi si : Nat)
    (h : message.data.all isWsChar = true) :
    chat offlineMode message aiResponse oi vi si =
      ChatResult.emptyInput ("I'm here to listen. Please share what's on your mind.")
        ("Empty input") := by
  have ht : jsTrim message = "" := jsTrim_all_ws h
  simp [chat, ht]

theorem whitespace_chat_listening_prompt_witness :
    chat true ("  \n ") none 0 0 0 =
      ChatResult.emptyInput ("I'm here to listen. Please share what's on your mind.")
        ("Empty input") :=
  whitespace_chat_listening_prompt true ("  \n ") none 0 0 0 (by decide)

/-- C1: any text containing a configured crisis keyword is classified
with `isCrisis = true` and `intensity = "critical"`, and the composed
response built by `wrapWithCompassion` contains the 988 crisis-line
contact (as does the function-based crisis resource formatter). -/
theorem crisis_keyword_critical_and_988 (text : String)
    (h : ∃ kw ∈ crisisPatterns, jsIncludes (jsToLower text) kw = true) :
    (validateEmotions text).isCrisis = true ∧
    (validateEmotions text).intensity = "critical" ∧
    (∀ originalResponse oi vi si,
      jsIncludes (wrapWithCompassion originalResponse text oi vi si) ("988") = true) ∧
    jsIncludes (formatResourceSuggestions ("crisis")) ("988") = true := by
  have hc : categoryMatches (jsToLower text) crisisPatterns = true := by
    rcases h with ⟨kw, hkw, hmatch⟩
    exact List.any_eq_true.mpr ⟨kw, hkw, hmatch⟩
  have hcr : (validateEmotions text).isCrisis = true := by
    rw [validateEmotions_eq]
    simpa using hc
  have hint : (validateEmotions text).intensity = "critical" := by
    rw [validateEmotions_eq]
    simp [hc]
  refine ⟨hcr, hint, ?_, by decide⟩
  intro originalResponse oi vi si
  have hsugg := suggestResources_of_crisis hcr
  simp only [wrapWithCompassion]
  apply jsIncludes_append_left
  apply jsIncludes_append_right
  simp only [resourcesBlock, hsugg]
  decide

theorem crisis_keyword_critical_and_988_witness :
    (∃ kw ∈ crisisPatterns, jsIncludes (jsToLower ("I want to kill myself")) kw = true) ∧
    (validateEmotions ("I want to kill myself")).isCrisis = true ∧
    jsIncludes (wrapWithCompassion ("I hear you") ("I want to kill myself") 1 2 3)
      ("988") = true :=
  ⟨by decide,
   (crisis_keyword_critical_and_988 ("I want to kill myself") (by decide)).1,
   (crisis_keyword_critical_and_988 ("I want to kill myself") (by decide)).2.2.1
     ("I hear you") 1 2 3⟩

/-- C8: with more than three distinct non-crisis emotions and no crisis,
the intensity is `high` and the suggested resources include the general
helpline entry while no suggestion is marked urgent. -/
theorem high_intensity_general_not_urgent (text : String)
    (h1 : 3 < (validateEmotions text).emotions.length)
    (h2 : (validateEmotions text).isCrisis = false) :
    (validateEmotions text).intensity = "high" ∧
    ({ asSuggestion generalResource with
        message := some "For ongoing support and resources:" }
      ∈ suggestResources (validateEmotions text)) ∧
    ∀ r ∈ suggestResources (validateEmotions text), r.urgent = false := by
  have hint : (validateEmotions text).intensity = "high" := by
    rw [validateEmotions_eq] at h1 h2 ⊢
    simp only at h1 h2 ⊢
    simp [h2, h1]
  have hsugg := suggestResources_of_high h2 hint
  refine ⟨hint, ?_, ?_⟩
  · rw [hsugg]
    simp
  · intro r hr
    rw [hsugg] at hr
    simp only [List.mem_cons, List.mem_singleton, List.not_mem_nil, or_false] at hr
    rcases hr with rfl | rfl <;> rfl

theorem high_intensity_general_not_urgent_witness :
    3 < (validateEmotions ("anxious sad angry overwhelmed")).emotions.length ∧
    (validateEmotions ("anxious sad angry overwhelmed")).isCrisis = false ∧
    (validateEmotions ("anxious sad angry overwhelmed")).intensity = "high" :=
  ⟨by decide, by decide,
   (high_intensity_general_not_urgent ("anxious sad angry overwhelmed")
     (by decide) (by decide)).1⟩

/-- C6: the random frame draws are cosmetic only.  Any two runs of
`wrapWithCompassion` on the same inputs decompose around the SAME
resource block (which contains all resource suggestions and the crisis
framing), and any two runs of `generateEmpathyResponse` decompose around
the SAME resource-suggestion section; the random indices influence only
the surrounding opening/validation/closing wording. -/
theorem randomness_cosmetic_only (originalResponse userInput : String)
    (oi vi si oi2 vi2 si2 : Nat)
    (message : String) (analysis : Analysis) (offline : Bool) (wi wi2 : Nat) :
    (∃ o v s o2 v2 s2,
      wrapWithCompassion originalResponse userInput oi vi si =
        o ++ "\n\n" ++ v ++ originalResponse ++ "\n\n" ++
          resourcesBlock (validateEmotions userInput) ++ s ∧
      wrapWithCompassion originalResponse userInput oi2 vi2 si2 =
        o2 ++ "\n\n" ++ v2 ++ originalResponse ++ "\n\n" ++
          resourcesBlock (validateEmotions userInput) ++ s2) ∧
    (∃ p p2,
      generateEmpathyResponse message analysis offline wi =
        jsTrim (p ++ (if analysis.suggestResources then
          formatResourceSuggestions analysis.emotionLevel else "")) ∧
      generateEmpathyResponse message analysis offline wi2 =
        jsTrim (p2 ++ (if analysis.suggestResources then
          formatResourceSuggestions analysis.emotionLevel else ""))) := by
  refine ⟨⟨pickFrame openingFrames oi,
    (if (validateEmotions userInput).emotions.length > 0 then
      pickFrame validationFrames vi ++ "\n\n" else ""),
    pickFrame supportiveFrames si,
    pickFrame openingFrames oi2,
    (if (validateEmotions userInput).emotions.length > 0 then
      pickFrame validationFrames vi2 ++ "\n\n" else ""),
    pickFrame supportiveFrames si2, ?_, ?_⟩,
    ⟨(if analysis.hasDistress || analysis.hasCrisis then
        generateValidation wi ++ ". " else "") ++
      (if offline then privacyNotice else ""),
     (if analysis.hasDistress || analysis.hasCrisis then
        generateValidation wi2 ++ ". " else "") ++
      (if offline then privacyNotice else ""), ?_, ?_⟩⟩ <;> rfl

/-- C7 (counterexample): the class-based composition path emits no
privacy notice even when the configuration is offline: the response of
`process` for a non-empty message mentions neither "privac(y)" nor
"local" in any casing, although the offline flag is set. -/
theorem offline_notice_cex :
    (process true ("I feel sad today") none 0 0 0).metadata.offlineMode = true ∧
    jsIncludes (jsToLower ((process true ("I feel sad today") none 0 0 0).response))
      ("privac") = false ∧
    jsIncludes (jsToLower ((process true ("I feel sad today") none 0 0 0).response))
      ("local") = false := by
  decide

/-- C7 (amended): the privacy notice is guaranteed only on the
function-based composition path: whenever `run` processes a non-empty
message in offline mode, its response contains the explicit privacy
notice; the class-based `wrapWithCompassion`/`process` path never adds
one. -/
theorem offline_run_privacy_notice (context : Context) (env : Option String)
    (params : RunParams) (vi : Nat)
    (hoff : isOfflineMode context env = true)
    (hmsg : jsOrString params.message
      (jsOrString params.text (jsOrString params.content (""))) ≠ "") :
    jsIncludes ((run context env params vi).response)
      ("**Privacy Mode**: Your conversation is staying private on your device.") = true := by
  have hbeq : (jsOrString params.message
      (jsOrString params.text (jsOrString params.content (""))) == "") = false := by
    rw [beq_eq_false_iff_ne]
    exact hmsg
  simp only [run, hbeq, Bool.false_eq_true, if_false, generateEmpathyResponse, hoff, if_true]
  exact notice_in_trimmed _ _

theorem offline_run_privacy_notice_witness :
    isOfflineMode
      { system := some { offlineMode := true, offline := false, networkStatus := "" } }
      none = true ∧
    jsIncludes
      ((run { system := some { offlineMode := true, offline := false, networkStatus := "" } }
          none { message := some "hello", text := none, content := none } 0).response)
      ("**Privacy Mode**: Your conversation is staying private on your device.") = true :=
  ⟨by decide,
   offline_run_privacy_notice
     { system := some { offlineMode := true, offline := false, networkStatus := "" } }
     none { message := some "hello", text := none, content := none } 0
     (by decide) (by decide)⟩

/-- C9: when none of the message aliases holds a non-empty string, `run`
returns the non-error empty result: success, empathy level `none`, empty
response.  The model of `run` is total, so no exception is possible. -/
theorem empty_params_success_none (context : Context) (env : Option String)
    (params : RunParams) (vi : Nat)
    (h1 : params.message = none ∨ params.message = some "")
    (h2 : params.text = none ∨ params.text = some "")
    (h3 : params.content = none ∨ params.content = some "") :
    run context env params vi =
      { success := true, empathyLevel := "none", response := "" } := by
  rcases params with ⟨m, t, c⟩
  dsimp only at h1 h2 h3
  rcases h1 with rfl | rfl <;> rcases h2 with rfl | rfl <;> rcases h3 with rfl | rfl <;> rfl

theorem empty_params_success_none_witness :
    run { system := none } none { message := none, text := some "", content := none } 7 =
      { success := true, empathyLevel := "none", response := "" } :=
  empty_params_success_none { system := none } none
    { message := none, text := some "", content := none } 7
    (Or.inl rfl) (Or.inr rfl) (Or.inl rfl)

end Claims
